import Mathlib

/-!
Verification of the `audiopus_sys` build script (`build.rs`).

The script is a cargo build-time decision engine: it resolves a linkage kind
(static or dynamic) from feature toggles, environment variables and platform
probes, tries an installed copy of the Opus library (environment override or
pkg-config), and otherwise either drives a five-step source build (unix/gnu
hosts) or links prebuilt artifacts (windows/msvc hosts).

The embedding below is shallow: environment variables become an immutable
`Env` record of optional strings, the outcomes of the external subprocesses
and filesystem operations become a `World` record, `panic!`/`expect` become
an `Option String` panic message carried in the result, and everything the
script prints to cargo (link directives, search paths) or spawns becomes an
explicit `Event` trace.  Informational `cargo:info=...` log lines are not
modelled: they carry no linking semantics and no property refers to them.
-/

namespace OpusBuild

/-- The environment variables `build.rs` reads, captured as one immutable
snapshot.  `none` models `env::var` returning `Err` (variable absent). -/
structure Env where
  LIBOPUS_LIB_DIR : Option String := none
  OPUS_LIB_DIR : Option String := none
  LIBOPUS_STATIC : Option String := none
  OPUS_STATIC : Option String := none
  LIBOPUS_NO_PKG : Option String := none
  OPUS_NO_PKG : Option String := none
  CARGO_CFG_TARGET_POINTER_WIDTH : Option String := none
  CARGO_CFG_TARGET_OS : Option String := none
  CARGO_CFG_TARGET_FAMILY : Option String := none
  CARGO_CFG_TARGET_ENV : Option String := none
  CARGO_CFG_HOST_ARCH : Option String := none
  CARGO_CFG_TARGET_ARCH : Option String := none
  CARGO_PKG_NAME : Option String := none
  OUT_DIR : Option String := none
deriving DecidableEq, Repr

/-- The two cargo feature toggles, `cfg!(feature = "static")` and
`cfg!(feature = "dynamic")`. -/
structure Features where
  static : Bool
  dynamic : Bool
deriving DecidableEq, Repr

/-- The spec's `LinkageKind`: static or dynamic linking. -/
inductive LinkageKind where
  | Static
  | Dynamic
deriving DecidableEq, Repr

/-- The linkage kind the boolean `is_static` of the code denotes. -/
def linkageOf (is_static : Bool) : LinkageKind :=
  if is_static then .Static else .Dynamic

/-- `rustc_linking_word` of `build.rs`: the library-file prefix word used in
cargo directives. -/
def rustc_linking_word (is_static_link : Bool) : String :=
  if is_static_link then "static" else "dylib"

/-- `is_target_x32` of `build.rs`:
`env::var("CARGO_CFG_TARGET_POINTER_WIDTH").map(|var| var == "32").unwrap_or(false)`. -/
def is_target_x32 (e : Env) : Bool :=
  (e.CARGO_CFG_TARGET_POINTER_WIDTH.map (fun var => var == "32")).getD false

/-- `is_target_os` of `build.rs`. -/
def is_target_os (e : Env) (os : String) : Bool :=
  (e.CARGO_CFG_TARGET_OS.map (fun var => var == os)).getD false

/-- `is_target_family` of `build.rs`. -/
def is_target_family (e : Env) (family : String) : Bool :=
  (e.CARGO_CFG_TARGET_FAMILY.map (fun var => var == family)).getD false

/-- `is_target_env` of `build.rs`. -/
def is_target_env (e : Env) (envName : String) : Bool :=
  (e.CARGO_CFG_TARGET_ENV.map (fun var => var == envName)).getD false

/-- `is_cross_compiled` of `build.rs`: `expect`s both architecture variables
(fatal when either is missing), then compares the two strings. -/
def is_cross_compiled (e : Env) : Except String Bool :=
  match e.CARGO_CFG_HOST_ARCH with
  | none => .error "Could not read host architecture environment variable."
  | some host_arch =>
    match e.CARGO_CFG_TARGET_ARCH with
    | none => .error "Could not read target architecture environment variable."
    | some target_arch => .ok (host_arch != target_arch)

/-- `default_library_linking` of `build.rs`: the platform-default linkage
(`true` = static), fatal on unmodeled targets. -/
def default_library_linking (e : Env) : Except String Bool :=
  if is_target_family e "windows" || is_target_os e "macos" || is_target_env e "musl" then
    .ok true
  else if is_target_family e "unix" && is_target_env e "gnu" then
    .ok false
  else
    .error "Unsupported target operating system."

/-- `find_installed_opus` of `build.rs`: the installed-library override,
`LIBOPUS_LIB_DIR` checked before `OPUS_LIB_DIR`, no merging. -/
def find_installed_opus (e : Env) : Option String :=
  match e.LIBOPUS_LIB_DIR with
  | some lib_directory => some lib_directory
  | none =>
    match e.OPUS_LIB_DIR with
    | some lib_directory => some lib_directory
    | none => none

/-- `is_static_build` of `build.rs`: the linkage policy resolver
(`true` = static). -/
def is_static_build (f : Features) (e : Env) : Except String Bool :=
  if f.static && f.dynamic then
    default_library_linking e
  else if f.static || e.LIBOPUS_STATIC.isSome || e.OPUS_STATIC.isSome then
    .ok true
  else if f.dynamic then
    .ok false
  else
    default_library_linking e

/-- The result of spawning one external command: the spawn itself can fail
(`Command::status()` returns `Err`, carrying an io-error text), or the
command runs and exits with a code (`success()` means code 0). -/
inductive CmdResult where
  | spawnError (err : String)
  | exited (code : Nat)
deriving DecidableEq, Repr

/-- `ExitStatus::success()`. -/
def CmdResult.success : CmdResult → Bool
  | .exited 0 => true
  | _ => false

/-- The five external steps of the source build, in pipeline order. -/
inductive BuildStep where
  | copySources
  | autogen
  | configure
  | make
  | makeInstall
deriving DecidableEq, Repr

/-- Pipeline position of a step. -/
def BuildStep.idx : BuildStep → Nat
  | .copySources => 0
  | .autogen => 1
  | .configure => 2
  | .make => 3
  | .makeInstall => 4

/-- Observable actions of the build script: spawning one of the five build
steps (with its argument list and injected environment variables), printing a
`cargo:rustc-link-lib=WORD=LIB` directive, printing a
`cargo:rustc-link-search=native=PATH` directive, probing pkg-config, and
copying a file. -/
inductive Event where
  | runStep (s : BuildStep) (args : List String) (envVars : List (String × String))
  | emitLinkLib (word : String) (lib : String)
  | emitSearchPath (path : String)
  | pkgProbe (statik : Bool)
  | copyFile (src : String) (dst : String)
deriving DecidableEq, Repr

/-- The result of one run of the script: the events it performed, in order,
and `some msg` when it ended in a `panic!`/`expect` with that message. -/
structure Outcome where
  events : List Event
  panicMsg : Option String
deriving DecidableEq, Repr

/-- Behaviour of everything outside the script: outcomes of the five spawned
commands, of `Path::canonicalize`, of the pkg-config probe, and of the
`opus.dll` filesystem copy.  `pkg_link_lib`/`pkg_search_path` are the
directive fields the pkg-config library announces on success. -/
structure World where
  canonicalize_opus : Option String
  cp : CmdResult
  autogen : CmdResult
  configure : CmdResult
  make : CmdResult
  make_install : CmdResult
  pkg_config_ok : Bool
  pkg_search_path : String
  canonicalize_msvc : String → Option String
  copy_dll_ok : Bool

/-- Outcome of the five spawned commands, by step. -/
def World.stepResult (w : World) : BuildStep → CmdResult
  | .copySources => w.cp
  | .autogen => w.autogen
  | .configure => w.configure
  | .make => w.make
  | .makeInstall => w.make_install

/-- The `expect` message attached to each step's spawn in `build_opus`
(`bd` is the build directory, interpolated into the copy step's message). -/
def spawnMsg (bd : String) : BuildStep → String
  | .copySources => "Failed to copy Opus files to: " ++ bd
  | .autogen => "Failed to run `sh autogen.sh`."
  | .configure => "Failed to run `configure` Opus."
  | .make => "Failed to run `make`."
  | .makeInstall => "Failed to run `make install`."

/-- The `panic!` message raised in `build_opus` when a step exits non-zero. -/
def exitFailMsg : BuildStep → String
  | .copySources => "Failed to copy Opus files."
  | .autogen => "Failed to autogen Opus."
  | .configure => "Failed to configure Opus."
  | .make => "Failed to build Opus via `make`."
  | .makeInstall => "Failed to install Opus via `make install`."

/-- The panic message `build_opus` raises for a failed step: `expect`
appends the io-error to its message on a spawn failure, a non-zero exit
panics with the fixed per-step message. -/
def stepPanicMsg (bd : String) (s : BuildStep) : CmdResult → String
  | .spawnError err => spawnMsg bd s ++ ": " ++ err
  | .exited _ => exitFailMsg s

/-- Runs one spawned step of `build_opus`: records the spawn attempt, panics
with the step's message on a spawn error or a non-zero exit, and otherwise
continues with `k`. -/
def runStepCmd (bd : String) (acc : List Event) (s : BuildStep) (args : List String)
    (envVars : List (String × String)) (r : CmdResult) (k : List Event → Outcome) : Outcome :=
  let acc := acc ++ [Event.runStep s args envVars]
  match r with
  | .spawnError err => { events := acc, panicMsg := some (spawnMsg bd s ++ ": " ++ err) }
  | .exited code =>
    if code == 0 then k acc
    else { events := acc, panicMsg := some (exitFailMsg s) }

/-- Embedding of the `.replace("\\", "/")` call of `build_opus`: the pattern
and the replacement are single characters, so the call maps every backslash
of the path to a forward slash. -/
def normalizeSeps (s : String) : String :=
  String.mk (s.data.map fun c => if c = '\\' then '/' else c)

/-- The argument list `build_opus` hands to the configure step, in the order
the code pushes them. -/
def configure_args (is_static cross : Bool) (build_directory : String) : List String :=
  ["configure"]
    ++ (if is_static then ["--enable-static", "--disable-shared"]
        else ["--disable-static", "--enable-shared"])
    ++ (if cross then ["--host"] else [])
    ++ ["--disable-doc", "--disable-extra-programs", "--with-pic", "--prefix",
        normalizeSeps build_directory]

/-- The environment variables `build_opus` injects into the configure step:
32-bit compiler and linker flags exactly on 32-bit targets. -/
def configure_envVars (x32 : Bool) : List (String × String) :=
  if x32 then [("LDFLAGS", "-g -O2 -m32"), ("CFLAGS", "-g -O2 -m32")] else []

/-- `build_opus` of `build.rs` (the unix/gnu definition): short-circuits on an
installed-library override, otherwise canonicalizes the source path and runs
the five-step pipeline copy → autogen → configure → make → make install,
emitting the link directives on full success. -/
def build_opus (w : World) (e : Env) (build_directory : String) (is_static : Bool)
    (installed_lib_directory : Option String) : Outcome :=
  let is_static_text := rustc_linking_word is_static
  match installed_lib_directory with
  | some prebuilt_directory =>
    { events := [.emitLinkLib is_static_text "opus", .emitSearchPath prebuilt_directory],
      panicMsg := none }
  | none =>
    match w.canonicalize_opus with
    | none => { events := [], panicMsg := some "Could not canonicalise." }
    | some opus_path =>
      runStepCmd build_directory [] .copySources ["-r", opus_path, build_directory] [] w.cp
        fun acc =>
      runStepCmd build_directory acc .autogen ["autogen.sh"] [] w.autogen
        fun acc =>
      match is_cross_compiled e with
      | .error msg => { events := acc, panicMsg := some msg }
      | .ok cross =>
        let x32 := is_target_x32 e
        runStepCmd build_directory acc .configure
            (configure_args is_static cross build_directory) (configure_envVars x32)
            w.configure
          fun acc =>
        runStepCmd build_directory acc .make [] [] w.make
          fun acc =>
        runStepCmd build_directory acc .makeInstall ["install"] [] w.make_install
          fun acc =>
        { events := acc ++ [.emitLinkLib is_static_text "opus",
                            .emitSearchPath (build_directory ++ "/lib")],
          panicMsg := none }

/-- The tail of `main` after the pkg-config block: read `OUT_DIR` (fatal when
missing) and call `build_opus`. -/
def main_build_path (w : World) (e : Env) (is_static : Bool)
    (installed : Option String) : Outcome :=
  match e.OUT_DIR with
  | none => { events := [], panicMsg := some "Environment variable `OUT_DIR` is missing." }
  | some build_variable => build_opus w e build_variable is_static installed

/-- `main` of `build.rs` as compiled on a unix/gnu host, where the pkg-config
block is present.  Modelled from the spec: on a successful probe the
package-registry library itself announces the link directive for the found
library (its emission is external code, not in `build.rs`), and `main`
returns without touching the build path. -/
def main_unix (w : World) (f : Features) (e : Env) : Outcome :=
  let installed_lib_directory := find_installed_opus e
  match is_static_build f e with
  | .error msg => { events := [], panicMsg := some msg }
  | .ok is_static =>
    if e.LIBOPUS_NO_PKG.isSome || e.OPUS_NO_PKG.isSome then
      main_build_path w e is_static installed_lib_directory
    else if w.pkg_config_ok then
      { events := [.pkgProbe is_static,
                   .emitLinkLib (rustc_linking_word is_static) "opus",
                   .emitSearchPath w.pkg_search_path],
        panicMsg := none }
    else
      let o := main_build_path w e is_static installed_lib_directory
      { events := Event.pkgProbe is_static :: o.events, panicMsg := o.panicMsg }

/-- Whether a character list starts with another one. -/
def charsStartWith : List Char → List Char → Bool
  | _, [] => true
  | [], _ :: _ => false
  | a :: as, b :: bs => a == b && charsStartWith as bs

/-- Whether `pat` occurs inside the character list (an empty pattern always
matches). -/
def charsContain (pat : List Char) : List Char → Bool
  | [] => pat.isEmpty
  | c :: rest => charsStartWith (c :: rest) pat || charsContain pat rest

/-- Embedding of Rust's `str::contains` for string patterns: `pat` occurs as
a substring of `s`. -/
def strContains (s pat : String) : Bool :=
  charsContain pat.data s.data

/-- Splits a character list at `/`, accumulating the current component in
reverse. -/
def splitSlashAux (acc : List Char) : List Char → List String
  | [] => [String.mk acc.reverse]
  | c :: rest =>
    if c = '/' then String.mk acc.reverse :: splitSlashAux [] rest
    else splitSlashAux (c :: acc) rest

/-- Path components of a `/`-separated path string, empty components
dropped (the embedding of `PathBuf` component structure). -/
def pathComponents (s : String) : List String :=
  (splitSlashAux [] s.data).filter (fun c => c ≠ "")

/-- Components joined back into a path string. -/
def joinPath : List String → String
  | [] => ""
  | [c] => c
  | c :: rest => c ++ "/" ++ joinPath rest

/-- The `loop` of `find_cargo_target_dir`, over the REVERSED component list
(head = `file_name()`): stop at the first component whose name contains the
package name, pop otherwise; an exhausted path means `file_name()` returned
`None` and the `unwrap()` panics (the code's own
`panic!("Unexpected build path")` needs `pop` to fail while `file_name()` is
`Some`, which cannot happen, so the unwrap panic is the one reached). -/
def fctd_loop (pkg_name : String) : List String → Option (List String)
  | [] => none
  | d :: rest =>
    if strContains d pkg_name then some (d :: rest) else fctd_loop pkg_name rest

/-- `find_cargo_target_dir` of `build.rs`: walk `OUT_DIR` upward to the first
ancestor whose name contains `CARGO_PKG_NAME`, then pop twice more.  Fatal
when either variable is missing or no such ancestor exists. -/
def find_cargo_target_dir (e : Env) : Except String (List String) :=
  match e.CARGO_PKG_NAME with
  | none => .error "Environment variable `CARGO_PKG_NAME` is missing."
  | some pkg_name =>
    match e.OUT_DIR with
    | none => .error "Environment variable `OUT_DIR` is missing."
    | some out_dir =>
      match fctd_loop pkg_name (pathComponents out_dir).reverse with
      | none => .error "called `Option::unwrap()` on a `None` value"
      | some rev => .ok (rev.drop 2).reverse

/-- The two msvc target architectures the script supports, with the words
the `cfg(target_arch)` constants select. -/
inductive WinArch where
  | x86
  | x86_64
deriving DecidableEq, Repr

/-- The `ARCHITECTURE` constant of `link_prebuilt_opus`. -/
def WinArch.word : WinArch → String
  | .x86 => "x86"
  | .x86_64 => "x64"

/-- The prebuilt library directory of `link_prebuilt_opus`: `msvc` joined
with the architecture word, and for a dynamic build the further `dy`
subdirectory. -/
def prebuilt_dir (arch : WinArch) (is_static : Bool) : String :=
  let building_path := "msvc/" ++ arch.word
  if !is_static then building_path ++ "/dy" else building_path

/-- `link_prebuilt_opus` of `build.rs` (windows/msvc): short-circuits on an
installed-library override; otherwise canonicalizes the architecture- and
linkage-keyed prebuilt directory, emits the directives, and for a dynamic
build additionally copies `opus.dll` into the cargo target directory (fatal
when that directory cannot be found or the copy fails). -/
def link_prebuilt_opus (w : World) (e : Env) (arch : WinArch) (is_static : Bool)
    (installed_lib_directory : Option String) : Outcome :=
  let is_static_text := rustc_linking_word is_static
  match installed_lib_directory with
  | some prebuilt_directory =>
    { events := [.emitLinkLib is_static_text "opus", .emitSearchPath prebuilt_directory],
      panicMsg := none }
  | none =>
    let building_path := prebuilt_dir arch is_static
    match w.canonicalize_msvc building_path with
    | none => { events := [], panicMsg := some "Could not canonicalise." }
    | some library_path =>
      let acc := [Event.emitLinkLib is_static_text "opus", Event.emitSearchPath library_path]
      if !is_static then
        let building_path := building_path ++ "/opus.dll"
        match find_cargo_target_dir e with
        | .error msg => { events := acc, panicMsg := some msg }
        | .ok dest_dir =>
          let dll_destination := joinPath dest_dir ++ "/opus.dll"
          if w.copy_dll_ok then
            { events := acc ++ [.copyFile building_path dll_destination], panicMsg := none }
          else
            { events := acc,
              panicMsg := some ("Failed to copy `opus.dll` from `" ++ building_path
                ++ "` to `" ++ dll_destination ++ "`.") }
      else
        { events := acc, panicMsg := none }

/-- `main` of `build.rs` as compiled on a windows/msvc host: the pkg-config
block is compiled out, `OUT_DIR` is still read (fatal when missing), and
`build_opus` there just forwards to `link_prebuilt_opus`. -/
def main_windows (w : World) (f : Features) (e : Env) (arch : WinArch) : Outcome :=
  let installed_lib_directory := find_installed_opus e
  match is_static_build f e with
  | .error msg => { events := [], panicMsg := some msg }
  | .ok is_static =>
    match e.OUT_DIR with
    | none => { events := [], panicMsg := some "Environment variable `OUT_DIR` is missing." }
    | some _ => link_prebuilt_opus w e arch is_static installed_lib_directory

/-! ## Helper lemmas on the platform probes -/

theorem is_target_family_some (e : Env) (s : String) (h : e.CARGO_CFG_TARGET_FAMILY = some s) :
    is_target_family e s = true := by
  simp [is_target_family, h]

theorem is_target_family_false_of_ne (e : Env) (s : String)
    (h : e.CARGO_CFG_TARGET_FAMILY ≠ some s) : is_target_family e s = false := by
  cases h' : e.CARGO_CFG_TARGET_FAMILY with
  | none => simp [is_target_family, h']
  | some v =>
    have hv : v ≠ s := fun hv => h (by rw [h', hv])
    simp [is_target_family, h', hv]

theorem is_target_os_some (e : Env) (s : String) (h : e.CARGO_CFG_TARGET_OS = some s) :
    is_target_os e s = true := by
  simp [is_target_os, h]

theorem is_target_os_false_of_ne (e : Env) (s : String)
    (h : e.CARGO_CFG_TARGET_OS ≠ some s) : is_target_os e s = false := by
  cases h' : e.CARGO_CFG_TARGET_OS with
  | none => simp [is_target_os, h']
  | some v =>
    have hv : v ≠ s := fun hv => h (by rw [h', hv])
    simp [is_target_os, h', hv]

theorem is_target_env_some (e : Env) (s : String) (h : e.CARGO_CFG_TARGET_ENV = some s) :
    is_target_env e s = true := by
  simp [is_target_env, h]

theorem is_target_env_false_of_ne (e : Env) (s : String)
    (h : e.CARGO_CFG_TARGET_ENV ≠ some s) : is_target_env e s = false := by
  cases h' : e.CARGO_CFG_TARGET_ENV with
  | none => simp [is_target_env, h']
  | some v =>
    have hv : v ≠ s := fun hv => h (by rw [h', hv])
    simp [is_target_env, h', hv]

/-! ## Claims -/

/-- C1: the linkage resolver yields exactly one linkage for every combination
of the two feature toggles and the two static-override variables, with the
precedence: both toggles set falls through to the platform default (not an
error); else the static toggle or either static-override variable forces
Static; else the dynamic toggle forces Dynamic; else the platform default
applies.  In particular, whenever the platform default is defined the
resolver returns a linkage. -/
theorem c1_linkage_resolver_precedence (f : Features) (e : Env) :
    (f.static = true → f.dynamic = true → is_static_build f e = default_library_linking e)
  ∧ ((f.static = true ∧ f.dynamic = false)
      ∨ (f.static = false ∧ (e.LIBOPUS_STATIC.isSome = true ∨ e.OPUS_STATIC.isSome = true)) →
      is_static_build f e = .ok true)
  ∧ (f.static = false → e.LIBOPUS_STATIC = none → e.OPUS_STATIC = none → f.dynamic = true →
      is_static_build f e = .ok false)
  ∧ (f.static = false → e.LIBOPUS_STATIC = none → e.OPUS_STATIC = none → f.dynamic = false →
      is_static_build f e = default_library_linking e)
  ∧ (∀ dflt, default_library_linking e = .ok dflt → ∃ b, is_static_build f e = .ok b) := by
  refine ⟨?_, ?_, ?_, ?_, ?_⟩
  · intro hs hd
    simp [is_static_build, hs, hd]
  · rintro (⟨hs, hd⟩ | ⟨hs, h | h⟩)
    · simp [is_static_build, hs, hd]
    · simp [is_static_build, hs, h]
    · simp [is_static_build, hs, h]
  · intro hs h1 h2 hd
    simp [is_static_build, hs, h1, h2, hd]
  · intro hs h1 h2 hd
    simp [is_static_build, hs, h1, h2, hd]
  · intro dflt h
    unfold is_static_build
    split
    · exact ⟨dflt, h⟩
    · split
      · exact ⟨true, rfl⟩
      · split
        · exact ⟨false, rfl⟩
        · exact ⟨dflt, h⟩

/-- Witness for C1: static toggle alone resolves to static linkage. -/
theorem c1_witness : is_static_build ⟨true, false⟩ {} = .ok true :=
  (c1_linkage_resolver_precedence ⟨true, false⟩ {}).2.1 (Or.inl ⟨rfl, rfl⟩)

/-- C2: the platform default is Static when the target family is windows, the
target OS is macos, or the target environment is musl; Dynamic when (outside
those cases) the target family is unix and the target environment is gnu;
and a fatal unsupported-target error for every other combination of the
three signals. -/
theorem c2_platform_default (e : Env) :
    ((e.CARGO_CFG_TARGET_FAMILY = some "windows" ∨ e.CARGO_CFG_TARGET_OS = some "macos" ∨
        e.CARGO_CFG_TARGET_ENV = some "musl") →
      default_library_linking e = .ok true)
  ∧ (e.CARGO_CFG_TARGET_OS ≠ some "macos" →
      e.CARGO_CFG_TARGET_FAMILY = some "unix" → e.CARGO_CFG_TARGET_ENV = some "gnu" →
      default_library_linking e = .ok false)
  ∧ (e.CARGO_CFG_TARGET_FAMILY ≠ some "windows" → e.CARGO_CFG_TARGET_OS ≠ some "macos" →
      e.CARGO_CFG_TARGET_ENV ≠ some "musl" →
      ¬(e.CARGO_CFG_TARGET_FAMILY = some "unix" ∧ e.CARGO_CFG_TARGET_ENV = some "gnu") →
      default_library_linking e = .error "Unsupported target operating system.") := by
  refine ⟨?_, ?_, ?_⟩
  · rintro (h | h | h)
    · simp [default_library_linking, is_target_family_some e _ h]
    · simp [default_library_linking, is_target_os_some e _ h]
    · simp [default_library_linking, is_target_env_some e _ h]
  · intro hos hfam henv
    have h1 : is_target_family e "windows" = false :=
      is_target_family_false_of_ne e _ (by rw [hfam]; simp)
    have h2 : is_target_os e "macos" = false := is_target_os_false_of_ne e _ hos
    have h3 : is_target_env e "musl" = false :=
      is_target_env_false_of_ne e _ (by rw [henv]; simp)
    simp [default_library_linking, h1, h2, h3,
      is_target_family_some e _ hfam, is_target_env_some e _ henv]
  · intro hw hm hmu hug
    have h1 : is_target_family e "windows" = false := is_target_family_false_of_ne e _ hw
    have h2 : is_target_os e "macos" = false := is_target_os_false_of_ne e _ hm
    have h3 : is_target_env e "musl" = false := is_target_env_false_of_ne e _ hmu
    have h4 : (is_target_family e "unix" && is_target_env e "gnu") = false := by
      by_cases hf : e.CARGO_CFG_TARGET_FAMILY = some "unix"
      · have hg : e.CARGO_CFG_TARGET_ENV ≠ some "gnu" := fun hg => hug ⟨hf, hg⟩
        simp [is_target_env_false_of_ne e _ hg]
      · simp [is_target_family_false_of_ne e _ hf]
    simp [default_library_linking, h1, h2, h3, h4]

/-- Witness for C2: a musl target defaults to static linkage. -/
theorem c2_witness :
    default_library_linking { CARGO_CFG_TARGET_ENV := some "musl" } = .ok true :=
  (c2_platform_default { CARGO_CFG_TARGET_ENV := some "musl" }).1 (Or.inr (Or.inr rfl))

/-- C8: every platform-probe predicate fails open to `false` when its
variable is absent, while `is_cross_compiled` is fatal when either
architecture variable is absent and otherwise returns whether the host and
target architecture strings differ. -/
theorem c8_probe_absence (e : Env) :
    (e.CARGO_CFG_TARGET_FAMILY = none → ∀ s, is_target_family e s = false)
  ∧ (e.CARGO_CFG_TARGET_OS = none → ∀ s, is_target_os e s = false)
  ∧ (e.CARGO_CFG_TARGET_ENV = none → ∀ s, is_target_env e s = false)
  ∧ (e.CARGO_CFG_TARGET_POINTER_WIDTH = none → is_target_x32 e = false)
  ∧ (e.CARGO_CFG_HOST_ARCH = none → ∃ msg, is_cross_compiled e = .error msg)
  ∧ (e.CARGO_CFG_TARGET_ARCH = none → ∃ msg, is_cross_compiled e = .error msg)
  ∧ (∀ h t, e.CARGO_CFG_HOST_ARCH = some h → e.CARGO_CFG_TARGET_ARCH = some t →
      is_cross_compiled e = .ok (h != t) ∧ (is_cross_compiled e = .ok true ↔ h ≠ t)) := by
  refine ⟨?_, ?_, ?_, ?_, ?_, ?_, ?_⟩
  · intro h s; simp [is_target_family, h]
  · intro h s; simp [is_target_os, h]
  · intro h s; simp [is_target_env, h]
  · intro h; simp [is_target_x32, h]
  · intro h
    exact ⟨"Could not read host architecture environment variable.",
      by simp [is_cross_compiled, h]⟩
  · intro h
    cases h' : e.CARGO_CFG_HOST_ARCH with
    | none =>
      exact ⟨"Could not read host architecture environment variable.",
        by simp [is_cross_compiled, h']⟩
    | some v =>
      exact ⟨"Could not read target architecture environment variable.",
        by simp [is_cross_compiled, h, h']⟩
  · intro h t hh ht
    constructor
    · simp [is_cross_compiled, hh, ht]
    · simp [is_cross_compiled, hh, ht]

/-- Witness for C8: differing architecture strings are detected as
cross-compilation. -/
theorem c8_witness :
    is_cross_compiled
      { CARGO_CFG_HOST_ARCH := some "x86_64", CARGO_CFG_TARGET_ARCH := some "arm" } =
      .ok true := by
  have := (c8_probe_absence
    { CARGO_CFG_HOST_ARCH := some "x86_64", CARGO_CFG_TARGET_ARCH := some "arm" }
    ).2.2.2.2.2.2 "x86_64" "arm" rfl rfl
  exact this.2.mpr (by decide)

/-- C10: the 32-bit predicate holds exactly when the pointer-width variable
is the exact string "32"; any other value (such as "16") and absence give
`false`, and the 32-bit compiler/linker flags are injected into the
configure step exactly in the "32" case. -/
theorem c10_pointer_width_exact (e : Env) :
    (is_target_x32 e = true ↔ e.CARGO_CFG_TARGET_POINTER_WIDTH = some "32")
  ∧ (∀ v, e.CARGO_CFG_TARGET_POINTER_WIDTH = some v → v ≠ "32" → is_target_x32 e = false)
  ∧ (e.CARGO_CFG_TARGET_POINTER_WIDTH = none → is_target_x32 e = false)
  ∧ (configure_envVars (is_target_x32 e) ≠ [] ↔
      e.CARGO_CFG_TARGET_POINTER_WIDTH = some "32") := by
  have key : is_target_x32 e = true ↔ e.CARGO_CFG_TARGET_POINTER_WIDTH = some "32" := by
    cases h : e.CARGO_CFG_TARGET_POINTER_WIDTH with
    | none => simp [is_target_x32, h]
    | some v => simp [is_target_x32, h]
  refine ⟨key, ?_, ?_, ?_⟩
  · intro v hv hne
    cases h32 : is_target_x32 e with
    | false => rfl
    | true => exact absurd (key.mp h32) (by rw [hv]; simp [hne])
  · intro h; simp [is_target_x32, h]
  · cases h32 : is_target_x32 e with
    | false => simp [configure_envVars, ← key, h32]
    | true => simp [configure_envVars, ← key, h32]

/-- Witness for C10: pointer width "16" is not treated as 32-bit. -/
theorem c10_witness :
    is_target_x32 { CARGO_CFG_TARGET_POINTER_WIDTH := some "16" } = false :=
  (c10_pointer_width_exact { CARGO_CFG_TARGET_POINTER_WIDTH := some "16" }).2.1
    "16" rfl (by decide)

/-- Whether an event is a `cargo:rustc-link-lib` directive. -/
def Event.isLinkLib : Event → Bool
  | .emitLinkLib _ _ => true
  | _ => false

/-- Whether an event is a `cargo:rustc-link-search` directive. -/
def Event.isSearchPath : Event → Bool
  | .emitSearchPath _ => true
  | _ => false

theorem build_opus_installed (w : World) (e : Env) (bd : String) (is_static : Bool)
    (d : String) :
    build_opus w e bd is_static (some d) =
      { events := [.emitLinkLib (rustc_linking_word is_static) "opus", .emitSearchPath d],
        panicMsg := none } := rfl

/-- Concrete environment refuting C3: the override is set, no bypass
variable is, and the platform is unix/gnu. -/
def c3_env : Env :=
  { LIBOPUS_LIB_DIR := some "/installed/opus",
    CARGO_CFG_TARGET_FAMILY := some "unix", CARGO_CFG_TARGET_ENV := some "gnu" }

/-- Concrete world refuting C3: the pkg-config probe succeeds. -/
def c3_world : World :=
  { canonicalize_opus := none, cp := .exited 0, autogen := .exited 0, configure := .exited 0,
    make := .exited 0, make_install := .exited 0, pkg_config_ok := true,
    pkg_search_path := "/pkg/lib", canonicalize_msvc := fun _ => none, copy_dll_ok := true }

/-- Counterexample to C3 as stated: with an installed-library override set
and no bypass variable, the unix `main` still invokes the pkg-config query,
and on a successful probe the emitted search path is the probe's, not the
override's. -/
theorem c3_counterexample :
    find_installed_opus c3_env = some "/installed/opus"
  ∧ c3_env.LIBOPUS_NO_PKG = none ∧ c3_env.OPUS_NO_PKG = none
  ∧ Event.pkgProbe false ∈ (main_unix c3_world ⟨false, false⟩ c3_env).events
  ∧ Event.emitSearchPath "/installed/opus" ∉ (main_unix c3_world ⟨false, false⟩ c3_env).events
  ∧ Event.emitSearchPath "/pkg/lib" ∈ (main_unix c3_world ⟨false, false⟩ c3_env).events := by
  refine ⟨rfl, rfl, rfl, ?_, ?_, ?_⟩ <;> decide

/-- C3 amended: with an installed-library override set, none of the five
source-build steps is ever invoked, the first-checked variable wins when
both are set, and whenever the pkg-config query is bypassed or fails the
pipeline emits exactly the override path as the search path (the query is
still made when no bypass variable is set). -/
theorem c3_override_no_build (w : World) (f : Features) (e : Env) (d : String)
    (hfind : find_installed_opus e = some d) :
    (∀ s args envVars, Event.runStep s args envVars ∉ (main_unix w f e).events)
  ∧ (∀ d₁, e.LIBOPUS_LIB_DIR = some d₁ → d = d₁)
  ∧ (∀ b bv, is_static_build f e = .ok b → e.OUT_DIR = some bv →
      (e.LIBOPUS_NO_PKG.isSome = true ∨ e.OPUS_NO_PKG.isSome = true ∨ w.pkg_config_ok = false) →
      Event.emitSearchPath d ∈ (main_unix w f e).events
      ∧ Event.emitLinkLib (rustc_linking_word b) "opus" ∈ (main_unix w f e).events
      ∧ (main_unix w f e).events.filter Event.isSearchPath = [.emitSearchPath d]) := by
  refine ⟨?_, ?_, ?_⟩
  · intro s args envVars
    cases hok : is_static_build f e with
    | error msg => simp [main_unix, hok]
    | ok b =>
      by_cases hbp : (e.LIBOPUS_NO_PKG.isSome || e.OPUS_NO_PKG.isSome) = true
      · cases hout : e.OUT_DIR with
        | none => simp [main_unix, hok, hbp, main_build_path, hout]
        | some bv =>
          simp [main_unix, hok, hbp, main_build_path, hout, hfind, build_opus_installed]
      · simp only [Bool.not_eq_true] at hbp
        cases hpkg : w.pkg_config_ok with
        | true => simp [main_unix, hok, hbp, hpkg]
        | false =>
          cases hout : e.OUT_DIR with
          | none => simp [main_unix, hok, hbp, hpkg, main_build_path, hout]
          | some bv =>
            simp [main_unix, hok, hbp, hpkg, main_build_path, hout, hfind,
              build_opus_installed]
  · intro d₁ hd₁
    unfold find_installed_opus at hfind
    rw [hd₁] at hfind
    exact (Option.some_injective _ hfind).symm
  · intro b bv hok hout hby
    have hbp : (e.LIBOPUS_NO_PKG.isSome || e.OPUS_NO_PKG.isSome) = true ∨
        ((e.LIBOPUS_NO_PKG.isSome || e.OPUS_NO_PKG.isSome) = false ∧ w.pkg_config_ok = false) := by
      rcases hby with h | h | h
      · exact Or.inl (by simp [h])
      · exact Or.inl (by simp [h])
      · by_cases hb : (e.LIBOPUS_NO_PKG.isSome || e.OPUS_NO_PKG.isSome) = true
        · exact Or.inl hb
        · exact Or.inr ⟨by simpa using hb, h⟩
    rcases hbp with hb | ⟨hb, hpk⟩
    · simp [main_unix, hok, hb, main_build_path, hout, hfind, build_opus_installed,
        Event.isSearchPath]
    · simp [main_unix, hok, hb, hpk, main_build_path, hout, hfind, build_opus_installed,
        Event.isSearchPath, List.filter]

/-- Witness for C3 amended: override set and pkg-config bypassed, the
override path is the emitted search path. -/
theorem c3_witness :
    Event.emitSearchPath "/ovr" ∈
      (main_unix c3_world ⟨false, false⟩
        { c3_env with LIBOPUS_LIB_DIR := some "/ovr",
                      LIBOPUS_NO_PKG := some "1", OUT_DIR := some "/out" }).events :=
  ((c3_override_no_build c3_world ⟨false, false⟩
      { c3_env with LIBOPUS_LIB_DIR := some "/ovr",
                    LIBOPUS_NO_PKG := some "1", OUT_DIR := some "/out" }
      "/ovr" rfl).2.2 false "/out" rfl rfl (Or.inl rfl)).1

/-- C4: with neither bypass variable set and a resolved linkage, a
successful pkg-config probe makes the pipeline emit exactly one link
directive without invoking any source-build step, and a failed probe is
non-fatal: the run is exactly the probe followed by the build path. -/
theorem c4_pkg_config_short_circuit (w : World) (f : Features) (e : Env) (b : Bool)
    (h1 : e.LIBOPUS_NO_PKG = none) (h2 : e.OPUS_NO_PKG = none)
    (hok : is_static_build f e = .ok b) :
    (w.pkg_config_ok = true →
      (main_unix w f e).events.filter Event.isLinkLib =
        [.emitLinkLib (rustc_linking_word b) "opus"]
      ∧ (∀ s args envVars, Event.runStep s args envVars ∉ (main_unix w f e).events)
      ∧ (main_unix w f e).panicMsg = none)
  ∧ (w.pkg_config_ok = false →
      main_unix w f e =
        { events := Event.pkgProbe b ::
            (main_build_path w e b (find_installed_opus e)).events,
          panicMsg := (main_build_path w e b (find_installed_opus e)).panicMsg }) := by
  constructor
  · intro hpkg
    refine ⟨?_, ?_, ?_⟩
    · simp [main_unix, hok, h1, h2, hpkg, List.filter, Event.isLinkLib]
    · intro s args envVars
      simp [main_unix, hok, h1, h2, hpkg]
    · simp [main_unix, hok, h1, h2, hpkg]
  · intro hpkg
    simp [main_unix, hok, h1, h2, hpkg]

/-- Witness for C4: on a unix/gnu target with a successful probe, the run
emits the single dynamic link directive. -/
theorem c4_witness :
    (main_unix c3_world ⟨false, false⟩
        { CARGO_CFG_TARGET_FAMILY := some "unix",
          CARGO_CFG_TARGET_ENV := some "gnu" }).events.filter Event.isLinkLib =
      [.emitLinkLib (rustc_linking_word false) "opus"] :=
  ((c4_pkg_config_short_circuit c3_world ⟨false, false⟩
      { CARGO_CFG_TARGET_FAMILY := some "unix", CARGO_CFG_TARGET_ENV := some "gnu" }
      false rfl rfl rfl).1 rfl).1

theorem CmdResult.success_exited (c : Nat) :
    CmdResult.success (.exited c) = (c == 0) := by
  cases c <;> rfl

/-- Concrete environment for refuting C5: same host and target architecture,
all variables the build path needs present. -/
def c5_env : Env :=
  { CARGO_CFG_HOST_ARCH := some "x86_64", CARGO_CFG_TARGET_ARCH := some "x86_64" }

/-- Concrete world for refuting C5: the configure step exits with the given
non-zero code, every other step succeeds. -/
def c5_world (code : Nat) : World :=
  { canonicalize_opus := some "/src/opus", cp := .exited 0, autogen := .exited 0,
    configure := .exited code, make := .exited 0, make_install := .exited 0,
    pkg_config_ok := false, pkg_search_path := "", canonicalize_msvc := fun _ => none,
    copy_dll_ok := true }

/-- Counterexample to C5 as stated: when the configure step exits non-zero,
the panic message is the fixed string "Failed to configure Opus.", which
contains no digit and is identical for exit status 1 and exit status 2 —
so the failure message does not report the external tool's exit status. -/
theorem c5_counterexample :
    (build_opus (c5_world 1) c5_env "/out" true none).panicMsg =
      some "Failed to configure Opus."
  ∧ build_opus (c5_world 2) c5_env "/out" true none =
      build_opus (c5_world 1) c5_env "/out" true none
  ∧ ("Failed to configure Opus.".data.all fun c => !c.isDigit) = true := by
  refine ⟨?_, ?_, ?_⟩ <;> decide

/-- C5 amended: a failing step (spawn error or non-zero exit) anywhere in
the five-step pipeline halts the build fatally before any later step is
invoked, and the panic message is the failed step's own message — the
per-step messages identify the step (the non-zero-exit messages are
pairwise distinct), but the non-zero-exit message does not include the
exit status. -/
theorem c5_step_failure_halts (w : World) (e : Env) (bd : String) (is_static : Bool)
    (s : BuildStep) (p hostArch targetArch : String)
    (hcan : w.canonicalize_opus = some p)
    (hh : e.CARGO_CFG_HOST_ARCH = some hostArch)
    (ht : e.CARGO_CFG_TARGET_ARCH = some targetArch)
    (hearlier : ∀ s', s'.idx < s.idx → w.stepResult s' = .exited 0)
    (hfail : (w.stepResult s).success = false) :
    (∀ s₁ s₂ : BuildStep, exitFailMsg s₁ = exitFailMsg s₂ → s₁ = s₂)
  ∧ (∀ s' args envVars,
      Event.runStep s' args envVars ∈ (build_opus w e bd is_static none).events →
      s'.idx ≤ s.idx)
  ∧ (build_opus w e bd is_static none).panicMsg =
      some (stepPanicMsg bd s (w.stepResult s)) := by
  refine ⟨fun s₁ s₂ h => ?_, ?_⟩
  · cases s₁ <;> cases s₂ <;> first | rfl | exact absurd h (by decide)
  · cases s with
    | copySources =>
      simp only [World.stepResult] at hfail ⊢
      cases hcp : w.cp with
      | spawnError err =>
        constructor
        · intro s' args envVars hmem
          simp [build_opus, hcan, hcp, runStepCmd] at hmem
          rcases hmem with ⟨h1, -⟩
          subst h1; decide
        · simp [build_opus, hcan, hcp, runStepCmd, stepPanicMsg]
      | exited c =>
        rw [hcp, CmdResult.success_exited] at hfail
        constructor
        · intro s' args envVars hmem
          simp [build_opus, hcan, hcp, runStepCmd, hfail] at hmem
          rcases hmem with ⟨h1, -⟩
          subst h1; decide
        · simp [build_opus, hcan, hcp, runStepCmd, hfail, stepPanicMsg]
    | autogen =>
      have hcp : w.cp = .exited 0 := hearlier .copySources (by decide)
      simp only [World.stepResult] at hfail ⊢
      cases hau : w.autogen with
      | spawnError err =>
        constructor
        · intro s' args envVars hmem
          simp [build_opus, hcan, hcp, hau, runStepCmd] at hmem
          rcases hmem with ⟨h1, -⟩ | ⟨h1, -⟩ <;> (subst h1; decide)
        · simp [build_opus, hcan, hcp, hau, runStepCmd, stepPanicMsg]
      | exited c =>
        rw [hau, CmdResult.success_exited] at hfail
        constructor
        · intro s' args envVars hmem
          simp [build_opus, hcan, hcp, hau, runStepCmd, hfail] at hmem
          rcases hmem with ⟨h1, -⟩ | ⟨h1, -⟩ <;> (subst h1; decide)
        · simp [build_opus, hcan, hcp, hau, runStepCmd, hfail, stepPanicMsg]
    | configure =>
      have hcp : w.cp = .exited 0 := hearlier .copySources (by decide)
      have hau : w.autogen = .exited 0 := hearlier .autogen (by decide)
      simp only [World.stepResult] at hfail ⊢
      cases hcfg : w.configure with
      | spawnError err =>
        constructor
        · intro s' args envVars hmem
          simp [build_opus, hcan, hcp, hau, hcfg, runStepCmd,
            is_cross_compiled, hh, ht] at hmem
          rcases hmem with ⟨h1, -⟩ | ⟨h1, -⟩ | ⟨h1, -⟩ <;> (subst h1; decide)
        · simp [build_opus, hcan, hcp, hau, hcfg, runStepCmd,
            is_cross_compiled, hh, ht, stepPanicMsg]
      | exited c =>
        rw [hcfg, CmdResult.success_exited] at hfail
        constructor
        · intro s' args envVars hmem
          simp [build_opus, hcan, hcp, hau, hcfg, runStepCmd, hfail,
            is_cross_compiled, hh, ht] at hmem
          rcases hmem with ⟨h1, -⟩ | ⟨h1, -⟩ | ⟨h1, -⟩ <;> (subst h1; decide)
        · simp [build_opus, hcan, hcp, hau, hcfg, runStepCmd, hfail,
            is_cross_compiled, hh, ht, stepPanicMsg]
    | make =>
      have hcp : w.cp = .exited 0 := hearlier .copySources (by decide)
      have hau : w.autogen = .exited 0 := hearlier .autogen (by decide)
      have hcfg : w.configure = .exited 0 := hearlier .configure (by decide)
      simp only [World.stepResult] at hfail ⊢
      cases hmk : w.make with
      | spawnError err =>
        constructor
        · intro s' args envVars hmem
          simp [build_opus, hcan, hcp, hau, hcfg, hmk, runStepCmd,
            is_cross_compiled, hh, ht] at hmem
          rcases hmem with ⟨h1, -⟩ | ⟨h1, -⟩ | ⟨h1, -⟩ | ⟨h1, -⟩ <;> (subst h1; decide)
        · simp [build_opus, hcan, hcp, hau, hcfg, hmk, runStepCmd,
            is_cross_compiled, hh, ht, stepPanicMsg]
      | exited c =>
        rw [hmk, CmdResult.success_exited] at hfail
        constructor
        · intro s' args envVars hmem
          simp [build_opus, hcan, hcp, hau, hcfg, hmk, runStepCmd, hfail,
            is_cross_compiled, hh, ht] at hmem
          rcases hmem with ⟨h1, -⟩ | ⟨h1, -⟩ | ⟨h1, -⟩ | ⟨h1, -⟩ <;> (subst h1; decide)
        · simp [build_opus, hcan, hcp, hau, hcfg, hmk, runStepCmd, hfail,
            is_cross_compiled, hh, ht, stepPanicMsg]
    | makeInstall =>
      have hcp : w.cp = .exited 0 := hearlier .copySources (by decide)
      have hau : w.autogen = .exited 0 := hearlier .autogen (by decide)
      have hcfg : w.configure = .exited 0 := hearlier .configure (by decide)
      have hmk : w.make = .exited 0 := hearlier .make (by decide)
      simp only [World.stepResult] at hfail ⊢
      cases hmi : w.make_install with
      | spawnError err =>
        constructor
        · intro s' args envVars hmem
          simp [build_opus, hcan, hcp, hau, hcfg, hmk, hmi, runStepCmd,
            is_cross_compiled, hh, ht] at hmem
          rcases hmem with ⟨h1, -⟩ | ⟨h1, -⟩ | ⟨h1, -⟩ | ⟨h1, -⟩ | ⟨h1, -⟩ <;>
            (subst h1; decide)
        · simp [build_opus, hcan, hcp, hau, hcfg, hmk, hmi, runStepCmd,
            is_cross_compiled, hh, ht, stepPanicMsg]
      | exited c =>
        rw [hmi, CmdResult.success_exited] at hfail
        constructor
        · intro s' args envVars hmem
          simp [build_opus, hcan, hcp, hau, hcfg, hmk, hmi, runStepCmd, hfail,
            is_cross_compiled, hh, ht] at hmem
          rcases hmem with ⟨h1, -⟩ | ⟨h1, -⟩ | ⟨h1, -⟩ | ⟨h1, -⟩ | ⟨h1, -⟩ <;>
            (subst h1; decide)
        · simp [build_opus, hcan, hcp, hau, hcfg, hmk, hmi, runStepCmd, hfail,
            is_cross_compiled, hh, ht, stepPanicMsg]

/-- Witness for C5 amended: a failing autogen step stops the pipeline with
the autogen panic message, before configure runs. -/
theorem c5_witness :
    (build_opus { c5_world 0 with autogen := .exited 1 } c5_env "/out" true none).panicMsg =
      some "Failed to autogen Opus." :=
  (c5_step_failure_halts { c5_world 0 with autogen := .exited 1 } c5_env "/out" true
    .autogen "/src/opus" "x86_64" "x86_64" rfl rfl rfl
    (fun s' h => by
      cases s' <;> first | rfl | exact absurd h (by decide))
    (by decide)).2.2

theorem runStepCmd_exit0 (bd : String) (acc : List Event) (s : BuildStep)
    (args : List String) (envVars : List (String × String)) (k : List Event → Outcome) :
    runStepCmd bd acc s args envVars (.exited 0) k =
      k (acc ++ [Event.runStep s args envVars]) := rfl

theorem runStepCmd_events_grow (bd : String) (acc : List Event) (s : BuildStep)
    (args : List String) (envVars : List (String × String)) (r : CmdResult)
    (k : List Event → Outcome) (hk : ∀ l, l <+: (k l).events) :
    (acc ++ [Event.runStep s args envVars]) <+:
      (runStepCmd bd acc s args envVars r k).events := by
  cases r with
  | spawnError err => exact List.prefix_refl _
  | exited c =>
    show (acc ++ [Event.runStep s args envVars]) <+:
      (if (c == 0) = true then k (acc ++ [Event.runStep s args envVars])
       else Outcome.mk (acc ++ [Event.runStep s args envVars]) (some (exitFailMsg s))).events
    by_cases hc : (c == 0) = true
    · rw [if_pos hc]; exact hk _
    · rw [if_neg hc]

theorem runStepCmd_events_grow_self (bd : String) (acc : List Event) (s : BuildStep)
    (args : List String) (envVars : List (String × String)) (r : CmdResult)
    (k : List Event → Outcome) (hk : ∀ l, l <+: (k l).events) :
    acc <+: (runStepCmd bd acc s args envVars r k).events :=
  (List.prefix_append acc [Event.runStep s args envVars]).trans
    (runStepCmd_events_grow bd acc s args envVars r k hk)

theorem runStepCmd_self_mem (bd : String) (acc : List Event) (s : BuildStep)
    (args : List String) (envVars : List (String × String)) (r : CmdResult)
    (k : List Event → Outcome) (hk : ∀ l, l <+: (k l).events) :
    Event.runStep s args envVars ∈ (runStepCmd bd acc s args envVars r k).events :=
  (runStepCmd_events_grow bd acc s args envVars r k hk).subset (by simp)

/-- The configure invocation as the spec states it: argument pair selected
by the linkage kind, a host flag when cross-compiling, and always the
documentation/extra-programs disables, position-independent code, and the
separator-normalized install prefix of the workspace. -/
def configure_args_spec (k : LinkageKind) (cross : Bool) (workspace : String) : List String :=
  ["configure"]
    ++ (match k with
        | .Static => ["--enable-static", "--disable-shared"]
        | .Dynamic => ["--disable-static", "--enable-shared"])
    ++ (if cross then ["--host"] else [])
    ++ ["--disable-doc", "--disable-extra-programs", "--with-pic", "--prefix",
        normalizeSeps workspace]

/-- C6: once copy and autogen have succeeded, the configure step is invoked
with exactly the arguments the spec describes: the enable/disable pair
selected by the resolved linkage, the host flag exactly when the host and
target architecture differ, the 32-bit compiler/linker flags exactly on
32-bit targets, and always the three fixed flags plus the
separator-normalized workspace prefix. -/
theorem c6_configure_invocation (w : World) (e : Env) (bd : String) (is_static : Bool)
    (p hostArch targetArch : String)
    (hcan : w.canonicalize_opus = some p)
    (hcp : w.cp = .exited 0) (hau : w.autogen = .exited 0)
    (hh : e.CARGO_CFG_HOST_ARCH = some hostArch)
    (ht : e.CARGO_CFG_TARGET_ARCH = some targetArch) :
    Event.runStep .configure
        (configure_args is_static (hostArch != targetArch) bd)
        (configure_envVars (is_target_x32 e))
      ∈ (build_opus w e bd is_static none).events
  ∧ is_cross_compiled e = .ok (hostArch != targetArch)
  ∧ configure_args is_static (hostArch != targetArch) bd =
      configure_args_spec (linkageOf is_static) (hostArch != targetArch) bd
  ∧ (configure_envVars (is_target_x32 e) ≠ [] ↔ is_target_x32 e = true) := by
  refine ⟨?_, ?_, ?_, ?_⟩
  · simp only [build_opus, hcan, hcp, hau, runStepCmd_exit0, is_cross_compiled, hh, ht]
    apply runStepCmd_self_mem
    intro l
    apply runStepCmd_events_grow_self
    intro l'
    apply runStepCmd_events_grow_self
    intro l''
    exact List.prefix_append _ _
  · simp [is_cross_compiled, hh, ht]
  · cases is_static <;> rfl
  · cases hx : is_target_x32 e <;> simp [configure_envVars]

/-- Witness for C6: a static non-cross 64-bit build invokes configure with
the static argument set. -/
theorem c6_witness :
    Event.runStep .configure
        (configure_args true ("x86_64" != "x86_64") "/out")
        (configure_envVars (is_target_x32 c5_env))
      ∈ (build_opus (c5_world 0) c5_env "/out" true none).events :=
  (c6_configure_invocation (c5_world 0) c5_env "/out" true "/src/opus" "x86_64" "x86_64"
    rfl rfl rfl rfl rfl).1

/-- C7: on full success of the five-step build, exactly one link-lib
directive is emitted, naming library "opus" and the linking word of the
resolved linkage ("static" for static, "dylib" for dynamic), and exactly
one search-path directive, naming the workspace's `lib` subdirectory. -/
theorem c7_success_emits_one_directive (w : World) (e : Env) (bd : String) (is_static : Bool)
    (p hostArch targetArch : String)
    (hcan : w.canonicalize_opus = some p)
    (hcp : w.cp = .exited 0) (hau : w.autogen = .exited 0) (hcfg : w.configure = .exited 0)
    (hmk : w.make = .exited 0) (hmi : w.make_install = .exited 0)
    (hh : e.CARGO_CFG_HOST_ARCH = some hostArch)
    (ht : e.CARGO_CFG_TARGET_ARCH = some targetArch) :
    (build_opus w e bd is_static none).panicMsg = none
  ∧ (build_opus w e bd is_static none).events.filter Event.isLinkLib =
      [.emitLinkLib (rustc_linking_word is_static) "opus"]
  ∧ (build_opus w e bd is_static none).events.filter Event.isSearchPath =
      [.emitSearchPath (bd ++ "/lib")]
  ∧ rustc_linking_word true = "static" ∧ rustc_linking_word false = "dylib" := by
  refine ⟨?_, ?_, ?_, rfl, rfl⟩ <;>
    simp [build_opus, hcan, hcp, hau, hcfg, hmk, hmi, runStepCmd_exit0,
      is_cross_compiled, hh, ht, Event.isLinkLib, Event.isSearchPath, List.filter]

/-- Witness for C7: a fully successful static build emits the single static
link directive and the single `lib` search path. -/
theorem c7_witness :
    (build_opus (c5_world 0) c5_env "/out" true none).events.filter Event.isSearchPath =
      [.emitSearchPath ("/out" ++ "/lib")] :=
  (c7_success_emits_one_directive (c5_world 0) c5_env "/out" true "/src/opus"
    "x86_64" "x86_64" rfl rfl rfl rfl rfl rfl rfl rfl).2.2.1

theorem fctd_loop_none (pkg : String) (l : List String)
    (h : ∀ c ∈ l, strContains c pkg = false) : fctd_loop pkg l = none := by
  induction l with
  | nil => rfl
  | cons d rest ih =>
    have hd : strContains d pkg = false := h d (List.mem_cons_self d rest)
    simp only [fctd_loop, hd, Bool.false_eq_true, if_false]
    exact ih fun c hc => h c (List.mem_cons_of_mem d hc)

theorem fctd_loop_found (pkg d : String) (rev₁ rev₂ : List String)
    (h₁ : ∀ c ∈ rev₁, strContains c pkg = false) (hd : strContains d pkg = true) :
    fctd_loop pkg (rev₁ ++ d :: rev₂) = some (d :: rev₂) := by
  induction rev₁ with
  | nil => simp [fctd_loop, hd]
  | cons c rest ih =>
    have hc : strContains c pkg = false := h₁ c (List.mem_cons_self c rest)
    simp only [List.cons_append, fctd_loop, hc, Bool.false_eq_true, if_false]
    exact ih fun x hx => h₁ x (List.mem_cons_of_mem c hx)

/-- C9: on the prebuilt (windows/msvc) path with no override set, the
selected library directory is keyed by architecture, the dynamic build
using the distinct `dy` subdirectory; a dynamic build additionally copies
`opus.dll` into the cargo target directory, found by walking upward from
`OUT_DIR` to the first ancestor whose name contains the package name and
then ascending two more levels, and it is fatal when no such ancestor
exists or when the copy fails. -/
theorem c9_prebuilt_linker (w : World) (e : Env) (arch : WinArch) :
    (prebuilt_dir arch true ≠ prebuilt_dir arch false
      ∧ prebuilt_dir .x86 true ≠ prebuilt_dir .x86_64 true
      ∧ prebuilt_dir .x86 false ≠ prebuilt_dir .x86_64 false)
  ∧ (∀ is_static lp, w.canonicalize_msvc (prebuilt_dir arch is_static) = some lp →
      Event.emitSearchPath lp ∈ (link_prebuilt_opus w e arch is_static none).events
      ∧ Event.emitLinkLib (rustc_linking_word is_static) "opus"
          ∈ (link_prebuilt_opus w e arch is_static none).events)
  ∧ (∀ lp dest, w.canonicalize_msvc (prebuilt_dir arch false) = some lp →
      find_cargo_target_dir e = .ok dest → w.copy_dll_ok = true →
      Event.copyFile (prebuilt_dir arch false ++ "/opus.dll") (joinPath dest ++ "/opus.dll")
          ∈ (link_prebuilt_opus w e arch false none).events
      ∧ (link_prebuilt_opus w e arch false none).panicMsg = none)
  ∧ (∀ lp msg, w.canonicalize_msvc (prebuilt_dir arch false) = some lp →
      find_cargo_target_dir e = .error msg →
      (link_prebuilt_opus w e arch false none).panicMsg = some msg)
  ∧ (∀ lp dest, w.canonicalize_msvc (prebuilt_dir arch false) = some lp →
      find_cargo_target_dir e = .ok dest → w.copy_dll_ok = false →
      (link_prebuilt_opus w e arch false none).panicMsg.isSome = true)
  ∧ (∀ pkg out, e.CARGO_PKG_NAME = some pkg → e.OUT_DIR = some out →
      (∀ c ∈ pathComponents out, strContains c pkg = false) →
      ∃ msg, find_cargo_target_dir e = .error msg)
  ∧ (∀ pkg out rev₁ d rev₂, e.CARGO_PKG_NAME = some pkg → e.OUT_DIR = some out →
      (pathComponents out).reverse = rev₁ ++ d :: rev₂ →
      (∀ c ∈ rev₁, strContains c pkg = false) → strContains d pkg = true →
      find_cargo_target_dir e = .ok ((d :: rev₂).drop 2).reverse)
  ∧ (∀ f b bv, find_installed_opus e = none → is_static_build f e = .ok b →
      e.OUT_DIR = some bv →
      main_windows w f e arch = link_prebuilt_opus w e arch b none) := by
  refine ⟨⟨?_, ?_, ?_⟩, ?_, ?_, ?_, ?_, ?_, ?_, ?_⟩
  · cases arch <;> decide
  · decide
  · decide
  · intro is_static lp hcanon
    cases is_static with
    | true => simp [link_prebuilt_opus, hcanon]
    | false =>
      cases hf : find_cargo_target_dir e with
      | error msg => simp [link_prebuilt_opus, hcanon, hf]
      | ok dest =>
        cases hcpy : w.copy_dll_ok with
        | true => simp [link_prebuilt_opus, hcanon, hf, hcpy]
        | false => simp [link_prebuilt_opus, hcanon, hf, hcpy]
  · intro lp dest hcanon hf hcpy
    constructor <;> simp [link_prebuilt_opus, hcanon, hf, hcpy]
  · intro lp msg hcanon hf
    simp [link_prebuilt_opus, hcanon, hf]
  · intro lp dest hcanon hf hcpy
    simp [link_prebuilt_opus, hcanon, hf, hcpy]
  · intro pkg out hpkg hout hnone
    refine ⟨"called `Option::unwrap()` on a `None` value", ?_⟩
    have hloop : fctd_loop pkg (pathComponents out).reverse = none :=
      fctd_loop_none pkg _ fun c hc => hnone c (List.mem_reverse.mp hc)
    simp [find_cargo_target_dir, hpkg, hout, hloop]
  · intro pkg out rev₁ d rev₂ hpkg hout hsplit h₁ hd
    have hloop : fctd_loop pkg (pathComponents out).reverse = some (d :: rev₂) := by
      rw [hsplit]; exact fctd_loop_found pkg d rev₁ rev₂ h₁ hd
    simp [find_cargo_target_dir, hpkg, hout, hloop]
  · intro f b bv hfind hok hout
    simp [main_windows, hfind, hok, hout]

/-- Concrete environment for the C9 witness: a realistic cargo `OUT_DIR`
below a build directory named after the package. -/
def c9_env : Env :=
  { CARGO_PKG_NAME := some "audiopus_sys",
    OUT_DIR := some "/proj/target/debug/build/audiopus_sys-1/out" }

/-- Concrete world for the C9 witness: canonicalization prepends an absolute
marker and the dll copy succeeds. -/
def c9_world : World :=
  { canonicalize_opus := none, cp := .exited 0, autogen := .exited 0, configure := .exited 0,
    make := .exited 0, make_install := .exited 0, pkg_config_ok := false,
    pkg_search_path := "", canonicalize_msvc := fun s => some ("/abs/" ++ s),
    copy_dll_ok := true }

/-- Witness for C9: the dynamic x64 build copies `opus.dll` into the cargo
target directory computed from `OUT_DIR`. -/
theorem c9_witness :
    Event.copyFile (prebuilt_dir .x86_64 false ++ "/opus.dll")
        (joinPath ["proj", "target", "debug"] ++ "/opus.dll")
      ∈ (link_prebuilt_opus c9_world c9_env .x86_64 false none).events :=
  ((c9_prebuilt_linker c9_world c9_env .x86_64).2.2.1 "/abs/msvc/x64/dy"
    ["proj", "target", "debug"] rfl rfl rfl).1

end OpusBuild
